import Mathlib

/-!
Shallow embedding of `tls/server-tls-pkcallback.c` (wolfssl-examples):
a TLS server registering an ECC private-key sign callback (`myEccSign`)
that can simulate deferred hardware completion by returning `WC_PENDING_E`
on the first invocation for an idle context.

External collaborators (the filesystem, `malloc`, and the wolfCrypt
primitives `wc_KeyPemToDer`, `wc_ecc_init`, `wc_EccPrivateKeyDecode`,
`wc_ecc_sign_hash`) are modelled as oracles collected in an `Env` record;
the control flow, error propagation, pointer assignments and `free` calls
of the example's own code are embedded faithfully, and every externally
observable action of one callback invocation is recorded in an event trace.
-/

namespace PkCallback

/-! ## Error codes (wolfssl/wolfcrypt/error-crypt.h) and constants -/

/-- `WC_PENDING_E`: operation pending, retry later. -/
def WC_PENDING_E : Int := -108

/-- `MEMORY_E`: out of memory. -/
def MEMORY_E : Int := -125

/-- `BUFFER_E`: bad buffer size / empty file in `load_file`. -/
def BUFFER_E : Int := -132

/-- `BAD_FUNC_ARG`: NULL argument to `load_file`. -/
def BAD_FUNC_ARG : Int := -173

/-- `BAD_PATH_ERROR`: `XFOPEN` failed in `load_file`. -/
def BAD_PATH_ERROR : Int := -174

/-- `WOLFSSL_SUCCESS`. -/
def WOLFSSL_SUCCESS : Int := 1

/-- `KEY_FILE` for the `USE_ECDHE_ECDSA` configuration (line 51). -/
def KEY_FILE : String := "../certs/ecc-key.pem"

/-! ## Data model -/

/-- A file as the loader sees it: its byte contents, and whether the single
`fread` of the whole file succeeds (`fread` returns a positive count). -/
structure File where
  contents : List Nat
  readOk : Bool
deriving Repr, DecidableEq

/-- Pointer values the local `keyBuf` of `myEccSign` (and the loader's
out-parameters) can hold.  `callerKey` is the `key` argument supplied by the
handshake engine; `loadFileBuf` is the buffer `malloc`ed inside `load_file`;
`derBuf` is the buffer `malloc`ed inside `load_key_file`. -/
inductive Ptr
  | null
  | callerKey
  | loadFileBuf
  | derBuf
deriving Repr, DecidableEq

/-- A `WOLFSSL` session object; `rngId` identifies the session-scoped DRBG
that `wolfSSL_GetRNG` returns. -/
structure WOLFSSL where
  rngId : Nat
deriving Repr, DecidableEq

/-- `wolfSSL_GetRNG(ssl)`: the RNG owned by the session. -/
def wolfSSL_GetRNG (ssl : WOLFSSL) : Nat := ssl.rngId

/-- `PkCbInfo` (lines 59-63): per-context key file path and async state flag.
The transient `ecc_key` member only lives inside one call (it is initialised
and freed there); the decoded key material is therefore not part of the
persistent context state. -/
structure PkCbInfo where
  keyFile : String
  state : Int
deriving Repr, DecidableEq

/-- Externally observable actions of one callback invocation.  `rngCreateEv`
would mark the executor creating/seeding an RNG of its own; the embedded code
never emits it, which makes its absence statable. -/
inductive Event
  | fileOpen (path : String)
  | mallocEv (p : Ptr)
  | freeEv (p : Ptr)
  | eccInitEv
  | eccFreeEv
  | pemToDerEv
  | eccDecodeEv
  | signHashEv (rngId : Nat)
  | rngCreateEv
deriving Repr, DecidableEq

/-- The environment: filesystem and wolfCrypt primitives driven by the
example.  `asyncSim` is the `WOLFSSL_ASYNC_CRYPT` compile-time flag.
`mallocFileOk` / `mallocDerOk` are the outcomes of the two `malloc` calls
(in `load_file` and `load_key_file`).  `pemToDer` is the return value of
`wc_KeyPemToDer` on the PEM bytes (negative = error, otherwise the DER
length), `pemToDerOut` the DER bytes it writes; `eccInitRet`,
`eccDecodeRet` and `eccSignRet` are the returns of `wc_ecc_init`,
`wc_EccPrivateKeyDecode` and `wc_ecc_sign_hash` (the latter also yields the
signature length written through `*outSz`). -/
structure Env where
  fs : String → Option File
  mallocFileOk : Bool
  mallocDerOk : Bool
  pemToDer : List Nat → Int
  pemToDerOut : List Nat → List Nat
  eccInitRet : Int
  eccDecodeRet : List Nat → Int
  eccSignRet : List Nat → List Nat → Nat → Int × Nat
  asyncSim : Bool

/-! ## Key material loader -/

/-- Result of `load_file`: return code, the pointer stored through `*buf`,
the bytes in that buffer when the read succeeded, and the event trace.
(When the read fails the buffer holds unread garbage; callers only consume
`bufContents` on `ret = 0`.) -/
structure LoadFileResult where
  ret : Int
  buf : Ptr
  bufContents : List Nat
  trace : List Event
deriving Repr, DecidableEq

/-- `load_file` (lines 67-110): open the file read-only, take its size, and
read the whole contents into a fresh buffer.  A failed open is
`BAD_PATH_ERROR`; zero size is `BUFFER_E`; a failed `malloc` is `MEMORY_E`;
a failed `fread` is `-1`.  The NULL-argument guard (`BAD_FUNC_ARG`) cannot
fire here because the embedding passes the arguments by value.  File sizes
are modelled unbounded (the `long`-to-`int` cast of `ftell` is out of
scope). -/
def load_file (env : Env) (fname : String) : LoadFileResult :=
  match env.fs fname with
  | none => ⟨BAD_PATH_ERROR, Ptr.null, [], [Event.fileOpen fname]⟩
  | some f =>
    if f.contents.length > 0 then
      if env.mallocFileOk then
        if f.readOk then
          ⟨0, Ptr.loadFileBuf, f.contents,
            [Event.fileOpen fname, Event.mallocEv Ptr.loadFileBuf]⟩
        else
          ⟨-1, Ptr.loadFileBuf, f.contents,
            [Event.fileOpen fname, Event.mallocEv Ptr.loadFileBuf]⟩
      else
        ⟨MEMORY_E, Ptr.null, [], [Event.fileOpen fname]⟩
    else
      ⟨BUFFER_E, Ptr.null, [], [Event.fileOpen fname]⟩

/-- Result of `load_key_file`: return code, the pointer written through
`*derBuf` (`none` when the function returned before touching it), the DER
bytes and length on success, and the event trace. -/
structure LoadKeyResult where
  ret : Int
  derBufPtr : Option Ptr
  der : List Nat
  derLen : Nat
  trace : List Event
deriving Repr, DecidableEq

/-- `load_key_file` (lines 112-138): read the PEM file via `load_file`,
allocate a DER buffer of the same size, convert with `wc_KeyPemToDer`.
On a `load_file` error it returns at once without writing `*derBuf`; on a
`malloc` failure it frees the PEM buffer; on a conversion error it frees
both buffers (leaving `*derBuf` pointing at the freed DER buffer); on
success it frees only the PEM buffer. -/
def load_key_file (env : Env) (fname : String) : LoadKeyResult :=
  let lf := load_file env fname
  if lf.ret ≠ 0 then
    ⟨lf.ret, none, [], 0, lf.trace⟩
  else
    if env.mallocDerOk then
      let r := env.pemToDer lf.bufContents
      if r < 0 then
        ⟨r, some Ptr.derBuf, [], 0,
          lf.trace ++ [Event.mallocEv Ptr.derBuf, Event.pemToDerEv,
            Event.freeEv lf.buf, Event.freeEv Ptr.derBuf]⟩
      else
        ⟨0, some Ptr.derBuf, env.pemToDerOut lf.bufContents, r.toNat,
          lf.trace ++ [Event.mallocEv Ptr.derBuf, Event.pemToDerEv,
            Event.freeEv lf.buf]⟩
    else
      ⟨MEMORY_E, some Ptr.null, [], 0, lf.trace ++ [Event.freeEv lf.buf]⟩

/-! ## Sign operation executor -/

/-- Result of one `myEccSign` invocation: return code, updated context,
`*outSz` after the call, the argument of the final `free(keyBuf)` (`none`
on the early pending return, which performs no `free`), and the trace. -/
structure SignResult where
  ret : Int
  cbInfo : PkCbInfo
  outSz : Nat
  freedAtExit : Option Ptr
  trace : List Event
deriving Repr, DecidableEq

/-- `myEccSign` (lines 143-183).  With `WOLFSSL_ASYNC_CRYPT` and an idle
context it increments the state and returns `WC_PENDING_E` before doing
anything else.  Otherwise it loads and converts the key file into `keyBuf`
(initialised to the caller's `key` argument and only changed when
`load_key_file` writes through its out-parameter), initialises and decodes
the ECC key, signs the digest with the session RNG from `wolfSSL_GetRNG`,
frees the decoded key, then unconditionally `free`s `keyBuf` and (under
`WOLFSSL_ASYNC_CRYPT`) clears the state before returning. -/
def myEccSign (env : Env) (ssl : WOLFSSL) (input : List Nat) (outSz0 : Nat)
    (cbInfo : PkCbInfo) : SignResult :=
  if env.asyncSim = true ∧ cbInfo.state = 0 then
    { ret := WC_PENDING_E
      cbInfo := { cbInfo with state := cbInfo.state + 1 }
      outSz := outSz0
      freedAtExit := none
      trace := [] }
  else
    let lk := load_key_file env cbInfo.keyFile
    let keyBuf : Ptr :=
      match lk.derBufPtr with
      | some p => p
      | none => Ptr.callerKey
    let body : Int × Nat × List Event :=
      if lk.ret = 0 then
        if env.eccInitRet = 0 then
          if env.eccDecodeRet lk.der = 0 then
            let rng := wolfSSL_GetRNG ssl
            let s := env.eccSignRet input lk.der rng
            (s.1, s.2, [Event.eccInitEv, Event.eccDecodeEv,
              Event.signHashEv rng, Event.eccFreeEv])
          else
            (env.eccDecodeRet lk.der, outSz0,
              [Event.eccInitEv, Event.eccDecodeEv, Event.eccFreeEv])
        else
          (env.eccInitRet, outSz0, [Event.eccInitEv])
      else
        (lk.ret, outSz0, [])
    { ret := body.1
      cbInfo := { cbInfo with state := if env.asyncSim then 0 else cbInfo.state }
      outSz := body.2.1
      freedAtExit := some keyBuf
      trace := lk.trace ++ body.2.2 ++ [Event.freeEv keyBuf] }

/-! ## Trace observations -/

/-- Heap pointers allocated during a trace. -/
def allocatedPtrs (t : List Event) : List Ptr :=
  t.filterMap fun e =>
    match e with
    | Event.mallocEv p => some p
    | _ => none

/-- Pointers passed to `free` during a trace. -/
def freedPtrs (t : List Event) : List Ptr :=
  t.filterMap fun e =>
    match e with
    | Event.freeEv p => some p
    | _ => none

/-- The wolfCrypt primitives of this example are synchronous software
implementations: none of them returns `WC_PENDING_E`. -/
def Env.sync (env : Env) : Prop :=
  (∀ b, env.pemToDer b ≠ WC_PENDING_E) ∧
  env.eccInitRet ≠ WC_PENDING_E ∧
  (∀ d, env.eccDecodeRet d ≠ WC_PENDING_E) ∧
  (∀ i d r, (env.eccSignRet i d r).1 ≠ WC_PENDING_E)

/-! ## main: per-connection setup and the handshake-advance loop -/

/-- `main` declares exactly one `PkCbInfo` (`myCtx`, line 201); this type
enumerates the context objects the program ever creates. -/
inductive CtxAddr
  | mainMyCtx
deriving Repr, DecidableEq

/-- `memset(&myCtx, 0, sizeof(myCtx)); myCtx.keyFile = KEY_FILE`
(lines 202-203), performed once before the accept loop. -/
def myCtxInit : PkCbInfo := { keyFile := KEY_FILE, state := 0 }

/-- What one iteration of the accept loop sets up for connection `conn`:
a fresh `WOLFSSL` object from `wolfSSL_new` (line 324) and the context
attached by `wolfSSL_SetEccSignCtx(ssl, &myCtx)` (line 335), which is the
address of the single `myCtx` every time. -/
structure ConnSetup where
  sslObj : Nat
  ctxAttached : CtxAddr
deriving Repr, DecidableEq

/-- Per-connection setup performed by the accept loop. -/
def serverConnSetup (conn : Nat) : ConnSetup :=
  { sslObj := conn, ctxAttached := CtxAddr.mainMyCtx }

/-- The `do { ret = wolfSSL_accept(ssl); err = wolfSSL_get_error(ssl, ret); }
while (err == WC_PENDING_E);` loop (lines 341-344).  `step n` is the
`(ret, err)` pair of the `n`-th `wolfSSL_accept` call on the same session;
`fuel` bounds the number of attempts modelled. -/
def acceptLoop (step : Nat → Int × Int) : Nat → Nat → Option (Int × Int)
  | _, 0 => none
  | i, fuel + 1 =>
    let r := step i
    if r.2 = WC_PENDING_E then acceptLoop step (i + 1) fuel else some r

/-- The abort check after the loop (lines 345-348): the connection is torn
down exactly when the loop's final `ret` is not `WOLFSSL_SUCCESS`. -/
def handshakeAborts (step : Nat → Int × Int) (fuel : Nat) : Option Bool :=
  (acceptLoop step 0 fuel).map fun r => decide (r.1 ≠ WOLFSSL_SUCCESS)

/-! ## Helper lemmas -/

/-- `load_file` opens the named file on every path. -/
theorem fileOpen_mem_load_file_trace (env : Env) (fname : String) :
    Event.fileOpen fname ∈ (load_file env fname).trace := by
  unfold load_file
  cases h : env.fs fname with
  | none => simp
  | some f =>
    by_cases hl : f.contents.length > 0 <;>
      by_cases hm : env.mallocFileOk <;>
        cases hr : f.readOk <;> simp [hl, hm, hr]

/-- `load_file` never returns `WC_PENDING_E`. -/
theorem load_file_ret_ne_pending (env : Env) (fname : String) :
    (load_file env fname).ret ≠ WC_PENDING_E := by
  unfold load_file
  cases h : env.fs fname with
  | none => simp [BAD_PATH_ERROR, WC_PENDING_E]
  | some f =>
    by_cases hl : f.contents.length > 0 <;>
      by_cases hm : env.mallocFileOk <;>
        cases hr : f.readOk <;>
          simp [hl, hm, hr, BAD_PATH_ERROR, WC_PENDING_E, MEMORY_E, BUFFER_E]

/-- `load_key_file` opens the named file on every path. -/
theorem fileOpen_mem_load_key_file_trace (env : Env) (fname : String) :
    Event.fileOpen fname ∈ (load_key_file env fname).trace := by
  have h := fileOpen_mem_load_file_trace env fname
  unfold load_key_file
  by_cases h0 : (load_file env fname).ret ≠ 0
  · simpa [h0]
  · by_cases hm : env.mallocDerOk <;>
      by_cases hp : env.pemToDer (load_file env fname).bufContents < 0 <;>
        simp [h0, hm, hp, h]

/-- With synchronous primitives, `load_key_file` never returns
`WC_PENDING_E`. -/
theorem load_key_file_ret_ne_pending (env : Env) (fname : String)
    (hp : ∀ b, env.pemToDer b ≠ WC_PENDING_E) :
    (load_key_file env fname).ret ≠ WC_PENDING_E := by
  have h := load_file_ret_ne_pending env fname
  have hp' : ∀ b, env.pemToDer b ≠ -108 := by
    simpa [WC_PENDING_E] using hp
  unfold load_key_file
  by_cases h0 : (load_file env fname).ret ≠ 0
  · simpa [h0]
  · by_cases hm : env.mallocDerOk <;>
      by_cases hpc : env.pemToDer (load_file env fname).bufContents < 0 <;>
        simp [h0, hm, hpc, MEMORY_E, WC_PENDING_E, hp']

/-- On a completing (non-pending-branch) invocation, `myEccSign` opens the
context's key file. -/
theorem fileOpen_mem_myEccSign_trace (env : Env) (ssl : WOLFSSL)
    (input : List Nat) (outSz0 : Nat) (cb : PkCbInfo)
    (hnp : ¬(env.asyncSim = true ∧ cb.state = 0)) :
    Event.fileOpen cb.keyFile ∈ (myEccSign env ssl input outSz0 cb).trace := by
  have h := fileOpen_mem_load_key_file_trace env cb.keyFile
  unfold myEccSign
  rw [if_neg hnp]
  simp [h]

/-- With synchronous primitives, a completing invocation never returns
`WC_PENDING_E`. -/
theorem myEccSign_completing_ret_ne_pending (env : Env) (ssl : WOLFSSL)
    (input : List Nat) (outSz0 : Nat) (cb : PkCbInfo)
    (hsync : Env.sync env)
    (hnp : ¬(env.asyncSim = true ∧ cb.state = 0)) :
    (myEccSign env ssl input outSz0 cb).ret ≠ WC_PENDING_E := by
  obtain ⟨hp, hi, hd, hs⟩ := hsync
  have hlk := load_key_file_ret_ne_pending env cb.keyFile hp
  unfold myEccSign
  rw [if_neg hnp]
  by_cases h0 : (load_key_file env cb.keyFile).ret = 0
  · by_cases hinit : env.eccInitRet = 0
    · by_cases hdec :
        env.eccDecodeRet (load_key_file env cb.keyFile).der = 0
      · simp [h0, hinit, hdec, hs]
      · simp [h0, hinit, hdec, hd]
    · simp [h0, hinit, hi]
  · simp [h0, hlk]

/-- A `myEccSign` invocation returns `WC_PENDING_E` exactly when the
async-simulation branch fires: async simulation on and context idle. -/
theorem myEccSign_pending_iff (env : Env) (ssl : WOLFSSL) (input : List Nat)
    (outSz0 : Nat) (cb : PkCbInfo) (hsync : Env.sync env) :
    (myEccSign env ssl input outSz0 cb).ret = WC_PENDING_E ↔
      (env.asyncSim = true ∧ cb.state = 0) := by
  constructor
  · intro h
    by_contra hnp
    exact myEccSign_completing_ret_ne_pending env ssl input outSz0 cb
      ⟨hsync.1, hsync.2.1, hsync.2.2.1, hsync.2.2.2⟩ hnp h
  · intro hb
    unfold myEccSign
    rw [if_pos hb]

/-! ## Concrete objects for witnesses and counterexamples -/

/-- A session object with RNG id 7, for concrete evaluations. -/
def sslW : WOLFSSL := ⟨7⟩

/-- A fresh (idle) context on the example's key file. -/
def cbIdle : PkCbInfo := { keyFile := KEY_FILE, state := 0 }

/-- Base environment: no file present, all primitives succeed, async
simulation off. -/
def envBase : Env :=
  { fs := fun _ => none
    mallocFileOk := true
    mallocDerOk := true
    pemToDer := fun _ => 64
    pemToDerOut := fun _ => [48, 119]
    eccInitRet := 0
    eccDecodeRet := fun _ => 0
    eccSignRet := fun _ _ _ => (0, 70)
    asyncSim := false }

/-- Async simulation enabled, key file readable. -/
def envAsyncGood : Env :=
  { envBase with
    fs := fun _ => some ⟨[45, 45, 66], true⟩
    asyncSim := true }

/-- Async simulation enabled, key file missing. -/
def envAsyncMissing : Env := { envBase with asyncSim := true }

/-- Key file present but the `fread` fails. -/
def envReadFail : Env := { envBase with fs := fun _ => some ⟨[45, 45], false⟩ }

/-- Key file present and readable but `wc_KeyPemToDer` rejects it
(e.g. `ASN_PARSE_E`). -/
def envPemFail : Env :=
  { envBase with
    fs := fun _ => some ⟨[45, 45], true⟩
    pemToDer := fun _ => -140 }

/-! ## C1 -/

/-- C1: with deferred-hardware simulation enabled (`WOLFSSL_ASYNC_CRYPT`),
every invocation of `myEccSign` on a context in state `0` (Idle) moves the
state to `1` (Pending) and returns `WC_PENDING_E` immediately, with an
empty event trace — no file access, no allocation, no cryptographic
computation, and no `free` on exit. -/
theorem c1_async_idle_returns_pending (env : Env) (ssl : WOLFSSL)
    (input : List Nat) (outSz0 : Nat) (cb : PkCbInfo)
    (ha : env.asyncSim = true) (hs : cb.state = 0) :
    (myEccSign env ssl input outSz0 cb).ret = WC_PENDING_E ∧
    (myEccSign env ssl input outSz0 cb).cbInfo.state = 1 ∧
    (myEccSign env ssl input outSz0 cb).trace = [] ∧
    (myEccSign env ssl input outSz0 cb).freedAtExit = none := by
  unfold myEccSign
  rw [if_pos ⟨ha, hs⟩]
  simp [hs]

/-- C1 witness: concrete first call with simulation on and a fresh context. -/
theorem c1_async_idle_returns_pending_witness :
    (myEccSign envAsyncGood sslW [3, 1] 80 cbIdle).ret = WC_PENDING_E ∧
    (myEccSign envAsyncGood sslW [3, 1] 80 cbIdle).cbInfo.state = 1 ∧
    (myEccSign envAsyncGood sslW [3, 1] 80 cbIdle).trace = [] ∧
    (myEccSign envAsyncGood sslW [3, 1] 80 cbIdle).freedAtExit = none :=
  c1_async_idle_returns_pending envAsyncGood sslW [3, 1] 80 cbIdle rfl rfl

/-! ## C3 -/

/-- C3: every invocation that does not return `WC_PENDING_E` leaves the
context state at `0` (Idle).  Without `WOLFSSL_ASYNC_CRYPT` the state field
is never written, so the hypothesis records that in that configuration the
state is still at its initial `0`. -/
theorem c3_nonpending_resets_idle (env : Env) (ssl : WOLFSSL)
    (input : List Nat) (outSz0 : Nat) (cb : PkCbInfo)
    (hidle : env.asyncSim = false → cb.state = 0)
    (h : (myEccSign env ssl input outSz0 cb).ret ≠ WC_PENDING_E) :
    (myEccSign env ssl input outSz0 cb).cbInfo.state = 0 := by
  by_cases hb : env.asyncSim = true ∧ cb.state = 0
  · exfalso
    apply h
    unfold myEccSign
    rw [if_pos hb]
  · unfold myEccSign
    rw [if_neg hb]
    cases ha : env.asyncSim with
    | false => simpa [ha] using hidle ha
    | true => simp [ha]

/-- C3 witness: a completing call on a missing key file returns a
non-pending error and leaves the state at Idle. -/
theorem c3_nonpending_resets_idle_witness :
    (myEccSign envBase sslW [3] 80 cbIdle).ret ≠ WC_PENDING_E ∧
    (myEccSign envBase sslW [3] 80 cbIdle).cbInfo.state = 0 :=
  ⟨by decide,
   c3_nonpending_resets_idle envBase sslW [3] 80 cbIdle
     (fun _ => rfl) (by decide)⟩

/-! ## C4 -/

/-- C4: when the context's key file does not exist, a completing
(non-pending) invocation propagates the loader's `BAD_PATH_ERROR` (the
surfaced key-unavailable error), leaves the context state at Idle, and
allocates no buffer at all (so none can leak). -/
theorem c4_missing_file_key_unavailable (env : Env) (ssl : WOLFSSL)
    (input : List Nat) (outSz0 : Nat) (cb : PkCbInfo)
    (hfs : env.fs cb.keyFile = none)
    (hnp : ¬(env.asyncSim = true ∧ cb.state = 0))
    (hidle : env.asyncSim = false → cb.state = 0) :
    (myEccSign env ssl input outSz0 cb).ret = BAD_PATH_ERROR ∧
    (myEccSign env ssl input outSz0 cb).cbInfo.state = 0 ∧
    allocatedPtrs (myEccSign env ssl input outSz0 cb).trace = [] := by
  unfold myEccSign
  rw [if_neg hnp]
  have hlk : load_key_file env cb.keyFile =
      ⟨BAD_PATH_ERROR, none, [], 0, [Event.fileOpen cb.keyFile]⟩ := by
    unfold load_key_file load_file
    rw [hfs]
    simp [BAD_PATH_ERROR]
  refine ⟨?_, ?_, ?_⟩
  · simp [hlk, BAD_PATH_ERROR]
  · cases ha : env.asyncSim with
    | false => simpa [ha] using hidle ha
    | true => simp [ha]
  · simp [hlk, BAD_PATH_ERROR, allocatedPtrs]

/-- C4 witness: concrete completing call with a missing key file. -/
theorem c4_missing_file_key_unavailable_witness :
    (myEccSign envBase sslW [3] 80 cbIdle).ret = BAD_PATH_ERROR ∧
    (myEccSign envBase sslW [3] 80 cbIdle).cbInfo.state = 0 ∧
    allocatedPtrs (myEccSign envBase sslW [3] 80 cbIdle).trace = [] :=
  c4_missing_file_key_unavailable envBase sslW [3] 80 cbIdle rfl
    (by decide) (fun _ => rfl)

/-! ## C6 -/

/-- C6: the `load_file` contract.  A file that cannot be opened yields
`BAD_PATH_ERROR`; a zero-length file yields the distinct error `BUFFER_E`;
a file whose contents cannot be read yields `-1`; otherwise the whole
contents are returned with return code `0`.  The three error codes are
pairwise distinct. -/
theorem c6_load_file_contract (env : Env) (fname : String) :
    (env.fs fname = none →
      (load_file env fname).ret = BAD_PATH_ERROR) ∧
    (∀ f, env.fs fname = some f → f.contents = [] →
      (load_file env fname).ret = BUFFER_E) ∧
    (∀ f, env.fs fname = some f → f.contents ≠ [] →
      env.mallocFileOk = true → f.readOk = false →
      (load_file env fname).ret = -1) ∧
    (∀ f, env.fs fname = some f → f.contents ≠ [] →
      env.mallocFileOk = true → f.readOk = true →
      (load_file env fname).ret = 0 ∧
      (load_file env fname).bufContents = f.contents) ∧
    (BAD_PATH_ERROR ≠ BUFFER_E ∧ BAD_PATH_ERROR ≠ -1 ∧ BUFFER_E ≠ (-1 : Int)) := by
  refine ⟨?_, ?_, ?_, ?_, by decide⟩
  · intro h
    unfold load_file
    rw [h]
  · intro f hf hc
    unfold load_file
    rw [hf]
    simp [hc]
  · intro f hf hc hm hr
    unfold load_file
    rw [hf]
    simp [List.length_pos.mpr hc, hm, hr]
  · intro f hf hc hm hr
    unfold load_file
    rw [hf]
    simp [List.length_pos.mpr hc, hm, hr]

/-- C6 witness: the four contract cases evaluated on concrete files. -/
theorem c6_load_file_contract_witness :
    (load_file envBase "k.pem").ret = BAD_PATH_ERROR ∧
    (load_file { envBase with fs := fun _ => some ⟨[], true⟩ } "k.pem").ret
      = BUFFER_E ∧
    (load_file envReadFail "k.pem").ret = -1 ∧
    ((load_file envAsyncGood "k.pem").ret = 0 ∧
      (load_file envAsyncGood "k.pem").bufContents = [45, 45, 66]) :=
  ⟨(c6_load_file_contract envBase "k.pem").1 rfl,
   (c6_load_file_contract { envBase with fs := fun _ => some ⟨[], true⟩ }
      "k.pem").2.1 ⟨[], true⟩ rfl rfl,
   (c6_load_file_contract envReadFail "k.pem").2.2.1 ⟨[45, 45], false⟩
      rfl (by decide) rfl rfl,
   (c6_load_file_contract envAsyncGood "k.pem").2.2.2.1 ⟨[45, 45, 66], true⟩
      rfl (by decide) rfl rfl⟩

/-! ## C2 -/

/-- C2: the executor never returns `WC_PENDING_E` twice in a row for the
same context: if a call returns `WC_PENDING_E`, the immediately following
call on the resulting context performs the real work (it opens the key
file), returns a non-pending result, and resets the state to `0` (Idle).
`Env.sync` records that the software primitives of this example never
themselves return `WC_PENDING_E`. -/
theorem c2_no_consecutive_pending (env : Env) (ssl : WOLFSSL)
    (input : List Nat) (outSz0 : Nat) (cb : PkCbInfo)
    (hsync : Env.sync env)
    (h1 : (myEccSign env ssl input outSz0 cb).ret = WC_PENDING_E) :
    (myEccSign env ssl input outSz0
      (myEccSign env ssl input outSz0 cb).cbInfo).ret ≠ WC_PENDING_E ∧
    (myEccSign env ssl input outSz0
      (myEccSign env ssl input outSz0 cb).cbInfo).cbInfo.state = 0 ∧
    Event.fileOpen cb.keyFile ∈
      (myEccSign env ssl input outSz0
        (myEccSign env ssl input outSz0 cb).cbInfo).trace := by
  have hb := (myEccSign_pending_iff env ssl input outSz0 cb hsync).mp h1
  have hcb1 : (myEccSign env ssl input outSz0 cb).cbInfo =
      { cb with state := 1 } := by
    unfold myEccSign
    rw [if_pos hb]
    simp [hb.2]
  rw [hcb1]
  have hnp : ¬(env.asyncSim = true ∧
      ({ cb with state := 1 } : PkCbInfo).state = 0) := by simp
  refine ⟨myEccSign_completing_ret_ne_pending env ssl input outSz0
    { cb with state := 1 } hsync hnp, ?_, ?_⟩
  · unfold myEccSign
    rw [if_neg hnp]
    simp [hb.1]
  · exact fileOpen_mem_myEccSign_trace env ssl input outSz0
      { cb with state := 1 } hnp

/-- C2 witness: with async simulation on and a readable key file, the first
call on a fresh context is pending and the second call is not. -/
theorem c2_no_consecutive_pending_witness :
    (myEccSign envAsyncGood sslW [3] 80
      (myEccSign envAsyncGood sslW [3] 80 cbIdle).cbInfo).ret ≠ WC_PENDING_E ∧
    (myEccSign envAsyncGood sslW [3] 80
      (myEccSign envAsyncGood sslW [3] 80 cbIdle).cbInfo).cbInfo.state = 0 ∧
    Event.fileOpen cbIdle.keyFile ∈
      (myEccSign envAsyncGood sslW [3] 80
        (myEccSign envAsyncGood sslW [3] 80 cbIdle).cbInfo).trace :=
  c2_no_consecutive_pending envAsyncGood sslW [3] 80 cbIdle
    ⟨fun _ => by simp [envAsyncGood, envBase, WC_PENDING_E],
     by decide,
     fun _ => by simp [envAsyncGood, envBase, WC_PENDING_E],
     fun _ _ _ => by simp [envAsyncGood, envBase, WC_PENDING_E]⟩
    (by decide)

/-! ## C5 -/

/-- The four possible outcomes of `load_key_file`, with the exact event
trace, return-code information and the pointer written through `*derBuf`:
(1) `load_file` failed — either before its `malloc` (file missing, empty,
or allocation failed), or after it when the `fread` failed, in which case
its buffer was allocated and is never freed; (2) the DER `malloc` failed;
(3) `wc_KeyPemToDer` failed, with both buffers freed but `*derBuf` left
pointing at the freed DER buffer; (4) success, with the PEM buffer freed
and the DER buffer handed to the caller. -/
theorem load_key_file_shape (env : Env) (fname : String) :
    ((load_key_file env fname).ret ≠ 0 ∧
      (load_key_file env fname).derBufPtr = none ∧
      ((load_key_file env fname).trace = [Event.fileOpen fname] ∨
        ((load_key_file env fname).trace =
            [Event.fileOpen fname, Event.mallocEv Ptr.loadFileBuf] ∧
          ∃ f, env.fs fname = some f ∧ f.readOk = false))) ∨
    ((load_key_file env fname).ret = MEMORY_E ∧
      (load_key_file env fname).derBufPtr = some Ptr.null ∧
      (load_key_file env fname).trace =
        [Event.fileOpen fname, Event.mallocEv Ptr.loadFileBuf,
          Event.freeEv Ptr.loadFileBuf]) ∨
    ((load_key_file env fname).ret ≠ 0 ∧
      (load_key_file env fname).derBufPtr = some Ptr.derBuf ∧
      (load_key_file env fname).trace =
        [Event.fileOpen fname, Event.mallocEv Ptr.loadFileBuf,
          Event.mallocEv Ptr.derBuf, Event.pemToDerEv,
          Event.freeEv Ptr.loadFileBuf, Event.freeEv Ptr.derBuf]) ∨
    ((load_key_file env fname).ret = 0 ∧
      (load_key_file env fname).derBufPtr = some Ptr.derBuf ∧
      (load_key_file env fname).trace =
        [Event.fileOpen fname, Event.mallocEv Ptr.loadFileBuf,
          Event.mallocEv Ptr.derBuf, Event.pemToDerEv,
          Event.freeEv Ptr.loadFileBuf]) := by
  unfold load_key_file load_file
  cases h : env.fs fname with
  | none => left; simp [BAD_PATH_ERROR]
  | some f =>
    by_cases hl : f.contents.length > 0
    · by_cases hm : env.mallocFileOk
      · cases hr : f.readOk with
        | false =>
          left
          refine ⟨by simp [hl, hm, hr], by simp [hl, hm, hr], ?_⟩
          right
          exact ⟨by simp [hl, hm, hr], f, rfl, hr⟩
        | true =>
          by_cases hd : env.mallocDerOk
          · by_cases hpc : env.pemToDer f.contents < 0
            · right; right; left
              refine ⟨?_, by simp [hl, hm, hr, hd, hpc], by simp [hl, hm, hr, hd, hpc]⟩
              simp only [hl, hm, hr, hd, hpc]
              simp [hl, hm, hr, hd, hpc]
              omega
            · right; right; right
              exact ⟨by simp [hl, hm, hr, hd, hpc], by simp [hl, hm, hr, hd, hpc],
                by simp [hl, hm, hr, hd, hpc]⟩
          · right; left
            exact ⟨by simp [hl, hm, hr, hd], by simp [hl, hm, hr, hd],
              by simp [hl, hm, hr, hd]⟩
      · left; simp [hl, hm, MEMORY_E]
    · left; simp [hl, BUFFER_E]

/-- C5 counterexample: when the `fread` inside `load_file` fails, the
buffer `load_file` allocated is leaked — it appears among the allocations
of the completing invocation's trace but is never passed to `free` (the
final `free(keyBuf)` releases the caller's key pointer instead). -/
theorem c5_read_failure_leaks_buffer :
    (myEccSign envReadFail sslW [3] 80 cbIdle).ret ≠ WC_PENDING_E ∧
    Ptr.loadFileBuf ∈
      allocatedPtrs (myEccSign envReadFail sslW [3] 80 cbIdle).trace ∧
    Ptr.loadFileBuf ∉
      freedPtrs (myEccSign envReadFail sslW [3] 80 cbIdle).trace := by
  decide

/-- C5 (amended): a completing invocation always re-opens the key file (no
caching), and — provided the `fread` of the key file does not fail, the one
path on which `load_file`'s buffer leaks — every buffer allocated during
the invocation is freed before it returns, and when `wc_ecc_init`
succeeds the decoded key object is destroyed exactly as many times as it
is created.  The persistent context keeps only the file path and state
flag, so no decoded key survives between calls. -/
theorem c5_no_key_retention (env : Env) (ssl : WOLFSSL) (input : List Nat)
    (outSz0 : Nat) (cb : PkCbInfo)
    (hnp : ¬(env.asyncSim = true ∧ cb.state = 0))
    (hread : ∀ f, env.fs cb.keyFile = some f → f.readOk = true) :
    Event.fileOpen cb.keyFile ∈ (myEccSign env ssl input outSz0 cb).trace ∧
    (∀ p ∈ allocatedPtrs (myEccSign env ssl input outSz0 cb).trace,
      p ∈ freedPtrs (myEccSign env ssl input outSz0 cb).trace) ∧
    (env.eccInitRet = 0 →
      (myEccSign env ssl input outSz0 cb).trace.count Event.eccInitEv =
        (myEccSign env ssl input outSz0 cb).trace.count Event.eccFreeEv) ∧
    (myEccSign env ssl input outSz0 cb).cbInfo.keyFile = cb.keyFile := by
  have hshape := load_key_file_shape env cb.keyFile
  unfold myEccSign
  rw [if_neg hnp]
  rcases hshape with ⟨h0, hdp, htr | ⟨htr, f, hf, hrf⟩⟩ | ⟨h0, hdp, htr⟩ |
    ⟨h0, hdp, htr⟩ | ⟨h0, hdp, htr⟩
  · simp [h0, hdp, htr, allocatedPtrs, freedPtrs]
  · exact absurd (hread f hf) (by simp [hrf])
  · refine ⟨?_, ?_, ?_, ?_⟩ <;>
      simp [h0, hdp, htr, MEMORY_E, allocatedPtrs, freedPtrs]
  · refine ⟨?_, ?_, ?_, ?_⟩ <;>
      simp [h0, hdp, htr, allocatedPtrs, freedPtrs]
  · by_cases hinit : env.eccInitRet = 0
    · by_cases hdec : env.eccDecodeRet (load_key_file env cb.keyFile).der = 0
      · refine ⟨?_, ?_, ?_, ?_⟩ <;>
          simp [h0, hdp, htr, hinit, hdec, allocatedPtrs, freedPtrs]
      · refine ⟨?_, ?_, ?_, ?_⟩ <;>
          simp [h0, hdp, htr, hinit, hdec, allocatedPtrs, freedPtrs]
    · refine ⟨?_, ?_, ?_, ?_⟩ <;>
        simp [h0, hdp, htr, hinit, allocatedPtrs, freedPtrs]

/-- Key file present and readable, async simulation off. -/
def envGoodFile : Env := { envBase with fs := fun _ => some ⟨[45, 66], true⟩ }

/-- C5 witness: full successful signing path with async simulation off —
the key file is opened, allocation/free and key init/free are balanced. -/
theorem c5_no_key_retention_witness :
    Event.fileOpen cbIdle.keyFile ∈
      (myEccSign envGoodFile sslW [3] 80 cbIdle).trace ∧
    (∀ p ∈ allocatedPtrs (myEccSign envGoodFile sslW [3] 80 cbIdle).trace,
      p ∈ freedPtrs (myEccSign envGoodFile sslW [3] 80 cbIdle).trace) ∧
    (envGoodFile.eccInitRet = 0 →
      (myEccSign envGoodFile sslW [3] 80 cbIdle).trace.count Event.eccInitEv =
        (myEccSign envGoodFile sslW [3] 80 cbIdle).trace.count Event.eccFreeEv) ∧
    (myEccSign envGoodFile sslW [3] 80 cbIdle).cbInfo.keyFile = cbIdle.keyFile :=
  c5_no_key_retention envGoodFile sslW [3] 80 cbIdle (by decide)
    (fun f hf => by
      simp only [envGoodFile, envBase] at hf
      exact (Option.some.inj hf) ▸ rfl)

/-! ## C7 -/

/-- Loop invariant for `acceptLoop`: a result is only produced by a
non-pending attempt, and every earlier attempt returned `WC_PENDING_E`. -/
theorem acceptLoop_some_spec (step : Nat → Int × Int) :
    ∀ (fuel i : Nat) (r : Int × Int), acceptLoop step i fuel = some r →
      r.2 ≠ WC_PENDING_E ∧
      ∃ n, i ≤ n ∧ r = step n ∧
        ∀ k, i ≤ k → k < n → (step k).2 = WC_PENDING_E := by
  intro fuel
  induction fuel with
  | zero => intro i r h; simp [acceptLoop] at h
  | succ fuel ih =>
    intro i r h
    simp only [acceptLoop] at h
    by_cases hp : (step i).2 = WC_PENDING_E
    · rw [if_pos hp] at h
      obtain ⟨hr, n, hin, hrn, hall⟩ := ih (i + 1) r h
      refine ⟨hr, n, by omega, hrn, ?_⟩
      intro k hik hkn
      rcases Nat.eq_or_lt_of_le hik with hk | hk
      · rwa [← hk]
      · exact hall k hk hkn
    · rw [if_neg hp] at h
      obtain rfl : step i = r := Option.some.inj h
      exact ⟨hp, i, le_refl i, rfl, fun k hik hki => absurd hki (by omega)⟩

/-- C7: in the caller's handshake-advance loop, an attempt whose error is
`WC_PENDING_E` is non-fatal — the loop re-invokes `wolfSSL_accept` on the
same session (next attempt of the same `step` sequence) — while a
non-pending attempt ends the loop with that attempt's result.  Any result
the loop delivers comes from an attempt whose error is not `WC_PENDING_E`,
all earlier attempts having returned `WC_PENDING_E`, and the connection is
aborted exactly when that final result is not `WOLFSSL_SUCCESS`. -/
theorem c7_accept_retry_until_not_pending (step : Nat → Int × Int)
    (fuel : Nat) :
    (∀ i f, (step i).2 = WC_PENDING_E →
      acceptLoop step i (f + 1) = acceptLoop step (i + 1) f) ∧
    (∀ i f, (step i).2 ≠ WC_PENDING_E →
      acceptLoop step i (f + 1) = some (step i)) ∧
    (∀ r, acceptLoop step 0 fuel = some r →
      r.2 ≠ WC_PENDING_E ∧
      ∃ n, r = step n ∧ ∀ k, k < n → (step k).2 = WC_PENDING_E) ∧
    (∀ r, acceptLoop step 0 fuel = some r →
      handshakeAborts step fuel = some (decide (r.1 ≠ WOLFSSL_SUCCESS))) := by
  refine ⟨?_, ?_, ?_, ?_⟩
  · intro i f hp
    simp only [acceptLoop]
    rw [if_pos hp]
  · intro i f hp
    simp only [acceptLoop]
    rw [if_neg hp]
  · intro r h
    obtain ⟨hr, n, _, hrn, hall⟩ := acceptLoop_some_spec step fuel 0 r h
    exact ⟨hr, n, hrn, fun k hk => hall k (Nat.zero_le k) hk⟩
  · intro r h
    unfold handshakeAborts
    rw [h]
    rfl

/-- Attempt sequence for the C7 witness: the first `wolfSSL_accept` call
reports `WC_PENDING_E`, the second succeeds. -/
def stepW : Nat → Int × Int :=
  fun n => if n = 0 then (-1, WC_PENDING_E) else (WOLFSSL_SUCCESS, 0)

/-- C7 witness: the loop retries over the pending first attempt and
delivers the successful second attempt. -/
theorem c7_accept_retry_until_not_pending_witness :
    acceptLoop stepW 0 (4 + 1) = acceptLoop stepW 1 4 ∧
    acceptLoop stepW 1 (3 + 1) = some (stepW 1) ∧
    ((WOLFSSL_SUCCESS, (0 : Int)).2 ≠ WC_PENDING_E ∧
      ∃ n, (WOLFSSL_SUCCESS, (0 : Int)) = stepW n ∧
        ∀ k, k < n → (stepW k).2 = WC_PENDING_E) ∧
    handshakeAborts stepW 5 =
      some (decide ((WOLFSSL_SUCCESS, (0 : Int)).1 ≠ WOLFSSL_SUCCESS)) :=
  ⟨(c7_accept_retry_until_not_pending stepW 5).1 0 4 (by decide),
   (c7_accept_retry_until_not_pending stepW 5).2.1 1 3 (by decide),
   (c7_accept_retry_until_not_pending stepW 5).2.2.1
     (WOLFSSL_SUCCESS, 0) (by decide),
   (c7_accept_retry_until_not_pending stepW 5).2.2.2
     (WOLFSSL_SUCCESS, 0) (by decide)⟩

/-! ## C8 -/

/-- No signing event occurs inside `load_file`. -/
theorem signHash_not_mem_load_file_trace (env : Env) (fname : String)
    (rid : Nat) : Event.signHashEv rid ∉ (load_file env fname).trace := by
  unfold load_file
  cases h : env.fs fname with
  | none => simp
  | some f =>
    by_cases hl : f.contents.length > 0 <;>
      by_cases hm : env.mallocFileOk <;>
        cases hr : f.readOk <;> simp [hl, hm, hr]

/-- No RNG-creation event occurs inside `load_file`. -/
theorem rngCreate_not_mem_load_file_trace (env : Env) (fname : String) :
    Event.rngCreateEv ∉ (load_file env fname).trace := by
  unfold load_file
  cases h : env.fs fname with
  | none => simp
  | some f =>
    by_cases hl : f.contents.length > 0 <;>
      by_cases hm : env.mallocFileOk <;>
        cases hr : f.readOk <;> simp [hl, hm, hr]

/-- No signing event occurs inside `load_key_file`. -/
theorem signHash_not_mem_load_key_file_trace (env : Env) (fname : String)
    (rid : Nat) : Event.signHashEv rid ∉ (load_key_file env fname).trace := by
  have h := signHash_not_mem_load_file_trace env fname rid
  unfold load_key_file
  by_cases h0 : (load_file env fname).ret ≠ 0
  · simpa [h0]
  · by_cases hm : env.mallocDerOk <;>
      by_cases hpc : env.pemToDer (load_file env fname).bufContents < 0 <;>
        simp [h0, hm, hpc, h]

/-- No RNG-creation event occurs inside `load_key_file`. -/
theorem rngCreate_not_mem_load_key_file_trace (env : Env) (fname : String) :
    Event.rngCreateEv ∉ (load_key_file env fname).trace := by
  have h := rngCreate_not_mem_load_file_trace env fname
  unfold load_key_file
  by_cases h0 : (load_file env fname).ret ≠ 0
  · simpa [h0]
  · by_cases hm : env.mallocDerOk <;>
      by_cases hpc : env.pemToDer (load_file env fname).bufContents < 0 <;>
        simp [h0, hm, hpc, h]

/-- C8: every signing event in a `myEccSign` trace uses exactly the RNG
returned by `wolfSSL_GetRNG` on the caller's session, and the executor
never creates an RNG of its own. -/
theorem c8_session_rng_only (env : Env) (ssl : WOLFSSL) (input : List Nat)
    (outSz0 : Nat) (cb : PkCbInfo) :
    (∀ rid, Event.signHashEv rid ∈ (myEccSign env ssl input outSz0 cb).trace →
      rid = wolfSSL_GetRNG ssl) ∧
    Event.rngCreateEv ∉ (myEccSign env ssl input outSz0 cb).trace := by
  by_cases hb : env.asyncSim = true ∧ cb.state = 0
  · unfold myEccSign
    rw [if_pos hb]
    simp
  · have hs := signHash_not_mem_load_key_file_trace env cb.keyFile
    have hrc := rngCreate_not_mem_load_key_file_trace env cb.keyFile
    unfold myEccSign
    rw [if_neg hb]
    by_cases h0 : (load_key_file env cb.keyFile).ret = 0
    · by_cases hinit : env.eccInitRet = 0
      · by_cases hdec :
          env.eccDecodeRet (load_key_file env cb.keyFile).der = 0
        · constructor
          · intro rid hmem
            simp only [h0, hinit, hdec] at hmem
            simpa [hs rid, wolfSSL_GetRNG] using hmem
          · simp [h0, hinit, hdec, hrc]
        · refine ⟨?_, by simp [h0, hinit, hdec, hrc]⟩
          intro rid hmem
          simp [h0, hinit, hdec, hs rid] at hmem
      · refine ⟨?_, by simp [h0, hinit, hrc]⟩
        intro rid hmem
        simp [h0, hinit, hs rid] at hmem
    · refine ⟨?_, by simp [h0, hrc]⟩
      intro rid hmem
      simp [h0, hs rid] at hmem

/-- C8 witness: on the successful signing path the trace holds a signing
event, whose RNG is the session's RNG id 7. -/
theorem c8_session_rng_only_witness :
    Event.signHashEv 7 ∈ (myEccSign envGoodFile sslW [3] 80 cbIdle).trace ∧
    (7 : Nat) = wolfSSL_GetRNG sslW ∧
    Event.rngCreateEv ∉ (myEccSign envGoodFile sslW [3] 80 cbIdle).trace :=
  ⟨by decide,
   (c8_session_rng_only envGoodFile sslW [3] 80 cbIdle).1 7 (by decide),
   (c8_session_rng_only envGoodFile sslW [3] 80 cbIdle).2⟩

/-! ## C9 -/

/-- C9 counterexample: connections 0 and 1 are distinct, yet the accept
loop attaches the very same context object (`&myCtx`) to both sessions —
contexts are shared across connections, not one per connection. -/
theorem c9_context_shared_across_connections :
    (0 : Nat) ≠ 1 ∧
    (serverConnSetup 0).ctxAttached = (serverConnSetup 1).ctxAttached := by
  decide

/-- C9 (amended): `main` creates a single `PkCbInfo` once per process,
zeroed and pointed at `KEY_FILE` before the accept loop; each connection
gets a fresh `WOLFSSL` session object, but every connection has that same
single context attached. -/
theorem c9_one_context_per_process (i j : Nat) (hij : i ≠ j) :
    (serverConnSetup i).ctxAttached = (serverConnSetup j).ctxAttached ∧
    (serverConnSetup i).sslObj ≠ (serverConnSetup j).sslObj ∧
    myCtxInit.state = 0 ∧ myCtxInit.keyFile = KEY_FILE :=
  ⟨rfl, hij, rfl, rfl⟩

/-- C9 witness: connections 0 and 1. -/
theorem c9_one_context_per_process_witness :
    (serverConnSetup 0).ctxAttached = (serverConnSetup 1).ctxAttached ∧
    (serverConnSetup 0).sslObj ≠ (serverConnSetup 1).sslObj ∧
    myCtxInit.state = 0 ∧ myCtxInit.keyFile = KEY_FILE :=
  c9_one_context_per_process 0 1 (by decide)

/-! ## C10 -/

/-- C10 counterexample: when `load_key_file` fails at the
`wc_KeyPemToDer` stage (not in `load_file`), `keyBuf` HAS been reassigned
— through the `derBuf` out-parameter — so the pointer passed to the exit
`free` is the loader's (already freed) DER buffer, not the caller's key:
the trace shows `derBuf` freed twice. -/
theorem c10_pem_failure_frees_loader_buffer :
    (load_key_file envPemFail cbIdle.keyFile).ret ≠ 0 ∧
    (myEccSign envPemFail sslW [3] 80 cbIdle).freedAtExit = some Ptr.derBuf ∧
    Ptr.derBuf ≠ Ptr.callerKey ∧
    (myEccSign envPemFail sslW [3] 80 cbIdle).trace.count
      (Event.freeEv Ptr.derBuf) = 2 := by
  decide

/-- C10 (amended): when the loader fails in its `load_file` stage (file
missing, empty, unreadable, or allocation failure), `keyBuf` keeps its
initialisation to the caller-supplied `key` argument, so the exit
`free(keyBuf)` releases the caller's buffer — a buffer the executor does
not own — and the load error is propagated as the return value. -/
theorem c10_load_file_failure_frees_caller_key (env : Env) (ssl : WOLFSSL)
    (input : List Nat) (outSz0 : Nat) (cb : PkCbInfo)
    (hnp : ¬(env.asyncSim = true ∧ cb.state = 0))
    (hlf : (load_file env cb.keyFile).ret ≠ 0) :
    (myEccSign env ssl input outSz0 cb).freedAtExit = some Ptr.callerKey ∧
    (myEccSign env ssl input outSz0 cb).ret = (load_file env cb.keyFile).ret := by
  have hlk : load_key_file env cb.keyFile =
      ⟨(load_file env cb.keyFile).ret, none, [], 0,
        (load_file env cb.keyFile).trace⟩ := by
    unfold load_key_file
    rw [if_pos hlf]
  unfold myEccSign
  rw [if_neg hnp]
  simp [hlk, hlf]

/-- C10 witness: missing key file — the executor frees the caller's key
pointer and returns the loader's `BAD_PATH_ERROR`. -/
theorem c10_load_file_failure_frees_caller_key_witness :
    (myEccSign envBase sslW [3] 80 cbIdle).freedAtExit = some Ptr.callerKey ∧
    (myEccSign envBase sslW [3] 80 cbIdle).ret =
      (load_file envBase cbIdle.keyFile).ret :=
  c10_load_file_failure_frees_caller_key envBase sslW [3] 80 cbIdle
    (by decide) (by decide)

end PkCallback
